import Mathlib

/-!
Shallow embedding of `src/pages/enrollments/[id].js` (a Next.js page plus an
API route appended in the same file).  The page's `getServerSideProps`
formats completed lessons (lines 62-77), builds the canonical course tree
(lines 104-127) and computes progress statistics (lines 129-138); `addLesson`
(lines 168-223) marks a lesson complete against the Directus content store;
the API `handler` (lines 1370-1456) validates the query parameter, fetches
enrollment and course and returns the formatted course tree.

JavaScript null/undefined is modelled with `Option`; field accesses that
would throw a `TypeError` on null are modelled as `Option` failure
(`none`), which in the page is caught by the surrounding `try` and turned
into an error response.  JavaScript numbers used as sort keys are modelled
as `Int`; `x.sort || 0` is `Option.getD`, which agrees with `||` because a
present key `0` is mapped to `0` either way.  `Array.prototype.sort` with a
consistent comparator is a stable ascending sort (ES2019), modelled by
`List.mergeSort` with the comparator's `le` relation.
-/

namespace LMS

/-- Raw lesson record as returned by the content store inside a course:
fields `id`, `title`, `sort` (the `sort` key may be null/absent). -/
structure RawLesson where
  id : String
  title : String
  sort : Option Int
deriving Repr, DecidableEq

/-- Raw module record inside a course: `id`, `title`, `sort`, and a
possibly-null `lessons` array. -/
structure RawModule where
  id : String
  title : String
  sort : Option Int
  lessons : Option (List RawLesson)
deriving Repr, DecidableEq

/-- Raw course record: `id`, `title`, and a possibly-null `modules` array. -/
structure RawCourse where
  id : String
  title : String
  modules : Option (List RawModule)
deriving Repr, DecidableEq

/-- JS `x.sort || 0`: default sort key 0 when the key is null/absent. -/
def sortKey (s : Option Int) : Int := s.getD 0

/-- Formatted lesson in the page's course tree (lines 118-123 build
`{id, title, url, sort}`). -/
structure Lesson where
  id : String
  title : String
  url : String
  sort : Int
deriving Repr, DecidableEq

/-- Formatted module in the page's course tree (lines 111-125). -/
structure Module where
  id : String
  title : String
  sort : Int
  lessons : List Lesson
deriving Repr, DecidableEq

/-- Formatted course tree (`formattedCourse`, lines 105-127). -/
structure Course where
  id : String
  title : String
  modules : List Module
deriving Repr, DecidableEq

/-- Comparator `(a, b) => (a.sort || 0) - (b.sort || 0)` on raw modules
(line 110), as the `le` relation of the stable ascending sort it induces. -/
def moduleLe (a b : RawModule) : Bool := decide (sortKey a.sort ≤ sortKey b.sort)

/-- Comparator `(a, b) => (a.sort || 0) - (b.sort || 0)` on raw lessons
(line 117), as the `le` relation of the stable ascending sort it induces. -/
def lessonLe (a b : RawLesson) : Bool := decide (sortKey a.sort ≤ sortKey b.sort)

/-- Lesson formatting, lines 118-123.  `encodeURIComponent` is modelled as
the identity on the callback string. -/
def formatLesson (baseUrl callbackUrl : String) (lesson : RawLesson) : Lesson :=
  { id := lesson.id
    title := lesson.title
    url := baseUrl ++ "/lessons/" ++ lesson.id ++ "?completed=false&callback=" ++ callbackUrl
    sort := sortKey lesson.sort }

/-- Module formatting, lines 111-125: sort the raw `lessons` array (stable,
ascending by `sort || 0`) and format each lesson; a null `lessons` array
yields `[]`.  Note the sort happens in place on the raw array (see
`mutateRawCourse`). -/
def formatModule (baseUrl callbackUrl : String) (m : RawModule) : Module :=
  { id := m.id
    title := m.title
    sort := sortKey m.sort
    lessons :=
      match m.lessons with
      | some ls => (ls.mergeSort lessonLe).map (formatLesson baseUrl callbackUrl)
      | none => [] }

/-- Course formatting (`formattedCourse`, lines 105-127): sort the raw
`modules` array (stable, ascending by `sort || 0`) and format each module;
a null `modules` array yields `[]`. -/
def formatCourse (baseUrl callbackUrl : String) (course : RawCourse) : Course :=
  { id := course.id
    title := course.title
    modules :=
      match course.modules with
      | some ms => (ms.mergeSort moduleLe).map (formatModule baseUrl callbackUrl)
      | none => [] }

/-- The in-place effect of the two `Array.prototype.sort` calls inside the
course formatting (lines 108-127): the raw `modules` array is reordered,
and each raw module's `lessons` array is reordered, as a side effect of
building the tree.  This definition is the post-state of the raw course
record after `formatCourse` has run. -/
def mutateRawCourse (c : RawCourse) : RawCourse :=
  { c with
    modules := c.modules.map (fun ms =>
      (ms.mergeSort moduleLe).map (fun m =>
        { m with lessons := m.lessons.map (fun ls => ls.mergeSort lessonLe) })) }

/-- Joined module record inside an enrollment's completion entry
(`lessons_completed.lms_lessons_id.module`), also the shape of the `module`
object in the formatted completed lesson (lines 68-72). -/
structure ModuleRef where
  id : String
  title : String
  sort : Int
deriving Repr, DecidableEq

/-- Joined lesson record inside an enrollment's completion entry
(`lessons_completed.lms_lessons_id`); the `module` join may be null. -/
structure CompletedLessonJoin where
  id : String
  title : String
  sort : Int
  module : Option ModuleRef
deriving Repr, DecidableEq

/-- One element of the enrollment's `lessons_completed` junction array; the
`lms_lessons_id` join may be null (the code in `addLesson` line 182 filters
such entries, so they do occur). -/
structure CompletionEntry where
  lms_lessons_id : Option CompletedLessonJoin
deriving Repr, DecidableEq

/-- Formatted completed lesson (lines 63-72). -/
structure CompletedLesson where
  id : String
  title : String
  sort : Int
  url : String
  module : ModuleRef
deriving Repr, DecidableEq

/-- Comparator of the completed-lessons sort, lines 73-77: module sort
difference first, then lesson sort difference; as its `le` relation. -/
def completedLe (a b : CompletedLesson) : Bool :=
  decide (a.module.sort < b.module.sort ∨ (a.module.sort = b.module.sort ∧ a.sort ≤ b.sort))

/-- Formatting of one `lessons_completed` item (lines 63-72).  A null item,
a null `lms_lessons_id` join or a null `module` join makes the property
accesses `item.lms_lessons_id.id` / `.module.id` throw, modelled as
`none`. -/
def formatCompletedItem (baseUrl callbackUrl : String) (item : Option CompletionEntry) :
    Option CompletedLesson :=
  match item with
  | none => none
  | some e =>
    match e.lms_lessons_id with
    | none => none
    | some l =>
      match l.module with
      | none => none
      | some m =>
        some { id := l.id
               title := l.title
               sort := l.sort
               url := baseUrl ++ "/lessons/" ++ l.id ++ "?completed=true&callback=" ++ callbackUrl
               module := { id := m.id, title := m.title, sort := m.sort } }

/-- The `.map` over `enrollment.lessons_completed` (line 63): every item is
formatted; the first throwing item aborts the whole computation. -/
def formatCompletedList (baseUrl callbackUrl : String) :
    List (Option CompletionEntry) → Option (List CompletedLesson)
  | [] => some []
  | item :: rest =>
    match formatCompletedItem baseUrl callbackUrl item, formatCompletedList baseUrl callbackUrl rest with
    | some l, some ls => some (l :: ls)
    | _, _ => none

/-- `completedLessons` (lines 62-77): map the enrollment's
`lessons_completed` array and sort by (module sort, lesson sort).  A null
`lessons_completed` makes `.map` throw (no null guard at line 63), modelled
as `none`. -/
def formatCompletedLessons (baseUrl callbackUrl : String)
    (lessons_completed : Option (List (Option CompletionEntry))) :
    Option (List CompletedLesson) :=
  match lessons_completed with
  | none => none
  | some entries =>
    match formatCompletedList baseUrl callbackUrl entries with
    | some ls => some (ls.mergeSort completedLe)
    | none => none

/-- `totalLessonsCount` (lines 130-132): `reduce((total, module) => total +
module.lessons.length, 0)`; the trailing `|| 0` only maps 0 to 0 here since
`formattedCourse.modules` is always an array. -/
def totalLessonsCount (course : Course) : Nat :=
  course.modules.foldl (fun total m => total + m.lessons.length) 0

/-- `progressStats` (lines 134-138).  JS numbers: `remainingCount` is a
plain subtraction and may be negative, hence `Int`. -/
structure ProgressStats where
  totalLessons : Int
  completedCount : Int
  remainingCount : Int
deriving Repr, DecidableEq

/-- Progress statistics, lines 134-138: total from the formatted course,
completed = length of the formatted completed list, remaining = the
difference (no clamping in the source). -/
def progressStats (formattedCourse : Course) (completedLessons : List CompletedLesson) :
    ProgressStats :=
  { totalLessons := (totalLessonsCount formattedCourse : Int)
    completedCount := (completedLessons.length : Int)
    remainingCount := (totalLessonsCount formattedCourse : Int) - (completedLessons.length : Int) }

/-- The pure aggregation stage of `getServerSideProps` in source order:
format the completed lessons (lines 62-77), build the course tree (lines
104-127), compute the statistics (lines 129-138).  `none` is the exception
path caught at line 151. -/
def aggregate (baseUrl callbackUrl : String)
    (lessons_completed : Option (List (Option CompletionEntry))) (course : RawCourse) :
    Option (List CompletedLesson × Course × ProgressStats) :=
  match formatCompletedLessons baseUrl callbackUrl lessons_completed with
  | none => none
  | some completedLessons =>
    let formattedCourse := formatCourse baseUrl callbackUrl course
    some (completedLessons, formattedCourse, progressStats formattedCourse completedLessons)

/-- Enrollment record as used by `addLesson` and the page (only the fields
the modelled logic reads; the remaining fetched fields are
presentation-only).  `lessons_completed` may be null, and its entries and
their joins may each be null. -/
structure Enrollment where
  id : String
  lessons_completed : Option (List (Option CompletionEntry))
deriving Repr, DecidableEq

/-- Extraction of the completed lesson ids in `addLesson` (lines 180-184):
`lessons_completed ? lessons_completed.filter(l => l && l.lms_lessons_id)
.map(l => l.lms_lessons_id.id) : []` — null entries and null joins are
skipped (filter then total map, written as one `filterMap`). -/
def extractCompletedLessonIds (lessons_completed : Option (List (Option CompletionEntry))) :
    List String :=
  match lessons_completed with
  | none => []
  | some entries => entries.filterMap (fun l => l.bind (fun e => e.lms_lessons_id.map (fun r => r.id)))

/-- JS `Response.ok`: status in the range 200-299. -/
def respOk (status : Nat) : Bool := decide (200 ≤ status ∧ status ≤ 299)

/-- Outcomes of the content-store calls made by `addLesson`:
`lessonFetch` is the GET of the lesson (`none` models a network-level
rejection of `fetch`, `some s` a response with HTTP status `s`), and
`updateOk` is whether the PATCH of the enrollment succeeds. -/
structure StoreEnv where
  lessonFetch : Option Nat
  updateOk : Bool
deriving Repr, DecidableEq

/-- Result of `addLesson`: the returned status code, and the replacement
completion-id list sent in the PATCH body when a PATCH was issued (`none`
when no write was attempted).  The PATCH body wraps each id as
`{lms_lessons_id: id}`; see `lessonCompletions`. -/
structure AddLessonResult where
  status : Nat
  write : Option (List String)
deriving Repr, DecidableEq

/-- The PATCH body shape (lines 196-198): each id wrapped as a junction
row `{lms_lessons_id: id}`. -/
structure CompletionWriteRow where
  lms_lessons_id : String
deriving Repr, DecidableEq

/-- `updatedLessonIds.map(id => ({lms_lessons_id: id}))`, lines 196-198. -/
def lessonCompletions (updatedLessonIds : List String) : List CompletionWriteRow :=
  updatedLessonIds.map (fun i => { lms_lessons_id := i })

/-- `addLesson` (lines 168-223).  Check the lesson exists: a thrown fetch
is caught at line 219 giving 500, a non-ok response returns its status
verbatim (line 176).  Extract the completed ids (no deduplication); if the
lesson id is already a member return 200 with no write (lines 187-190);
otherwise PATCH the list `[...completedLessonIds, lessonId]`: 201 on
success, and a non-ok PATCH throws (line 214) and is caught giving 500. -/
def addLesson (env : StoreEnv) (enrollment : Enrollment) (lessonId : String) : AddLessonResult :=
  match env.lessonFetch with
  | none => { status := 500, write := none }
  | some s =>
    if respOk s = false then
      { status := s, write := none }
    else
      let completedLessonIds := extractCompletedLessonIds enrollment.lessons_completed
      if lessonId ∈ completedLessonIds then
        { status := 200, write := none }
      else
        let updatedLessonIds := completedLessonIds ++ [lessonId]
        if env.updateOk then
          { status := 201, write := some updatedLessonIds }
        else
          { status := 500, write := some updatedLessonIds }

/-- Nested course object of the enrollment fetched by the API handler
(fields `id,course.id`, line 1386). -/
structure ApiEnrollmentCourse where
  id : String
deriving Repr, DecidableEq

/-- Enrollment body fetched by the API handler; `course` may be null
(checked at line 1398). -/
structure ApiEnrollment where
  id : String
  course : Option ApiEnrollmentCourse
deriving Repr, DecidableEq

/-- Outcome of one `fetch` in the API handler: a network-level rejection
(`thrown`), a non-ok HTTP status, or an ok response whose parsed `data`
field may still be null. -/
inductive FetchOutcome (α : Type) where
  | thrown : FetchOutcome α
  | httpError : Nat → FetchOutcome α
  | success : Option α → FetchOutcome α
deriving Repr, DecidableEq

/-- The two content-store calls the API handler makes. -/
structure ApiEnv where
  enrollmentRes : FetchOutcome ApiEnrollment
  courseRes : FetchOutcome RawCourse
deriving Repr, DecidableEq

/-- Lesson in the API handler's formatted response (lines 1437-1441; no
`url` field, unlike the page's tree). -/
structure ApiLesson where
  id : String
  title : String
  sort : Int
deriving Repr, DecidableEq

/-- Module in the API handler's formatted response (lines 1429-1443). -/
structure ApiModule where
  id : String
  title : String
  sort : Int
  lessons : List ApiLesson
deriving Repr, DecidableEq

/-- The API handler's formatted response body (lines 1422-1445). -/
structure ApiCourse where
  id : String
  title : String
  modules : List ApiModule
deriving Repr, DecidableEq

/-- The API handler's course formatting (lines 1422-1445): identical
sorting and defaulting to the page's `formatCourse`, without the `url`
field. -/
def formatCourseApi (course : RawCourse) : ApiCourse :=
  { id := course.id
    title := course.title
    modules :=
      match course.modules with
      | some ms =>
        (ms.mergeSort moduleLe).map (fun m =>
          { id := m.id
            title := m.title
            sort := sortKey m.sort
            lessons :=
              match m.lessons with
              | some ls =>
                (ls.mergeSort lessonLe).map (fun lesson =>
                  { id := lesson.id, title := lesson.title, sort := sortKey lesson.sort })
              | none => [] })
      | none => [] }

/-- JS falsiness of the `enrollment_id` query parameter (line 1374):
absent, or present but the empty string. -/
def strFalsy : Option String → Bool
  | none => true
  | some s => s.isEmpty

/-- Result of the API handler: HTTP status, number of content-store
requests issued, and the formatted course body on 200. -/
structure HandlerResult where
  status : Nat
  storeCalls : Nat
  body : Option ApiCourse
deriving Repr, DecidableEq

/-- The API route `handler` (lines 1370-1456).  Missing `enrollment_id`
returns 400 before any store call; the enrollment fetch maps 404 to 404 and
any other failure throws into the catch (500); a null enrollment or null
nested course gives 404; the course fetch likewise maps 404 to 404, other
failures to 500, a null course body to 404; otherwise 200 with the
formatted course. -/
def handler (env : ApiEnv) (enrollment_id : Option String) : HandlerResult :=
  if strFalsy enrollment_id then
    { status := 400, storeCalls := 0, body := none }
  else
    match env.enrollmentRes with
    | .thrown => { status := 500, storeCalls := 1, body := none }
    | .httpError s =>
      if s = 404 then { status := 404, storeCalls := 1, body := none }
      else { status := 500, storeCalls := 1, body := none }
    | .success odata =>
      match odata with
      | none => { status := 404, storeCalls := 1, body := none }
      | some enrollment =>
        match enrollment.course with
        | none => { status := 404, storeCalls := 1, body := none }
        | some _ =>
          match env.courseRes with
          | .thrown => { status := 500, storeCalls := 2, body := none }
          | .httpError s =>
            if s = 404 then { status := 404, storeCalls := 2, body := none }
            else { status := 500, storeCalls := 2, body := none }
          | .success ocourse =>
            match ocourse with
            | none => { status := 404, storeCalls := 2, body := none }
            | some course => { status := 200, storeCalls := 2, body := some (formatCourseApi course) }

/-- Lesson ids of a formatted course tree, for comparing the code's
completed count with the spec's intersection. -/
def lessonIdsOfCourse (course : Course) : List String :=
  course.modules.foldr (fun m acc => m.lessons.map (fun l => l.id) ++ acc) []

/-- Modelled from the spec: `completed = |completedLessonIds ∩
lessonIds(course)|` — the number of distinct completed ids that resolve to
a lesson of the current course tree.  This is the spec's formula, for
comparison with the code's `completedCount`. -/
def specCompletedCount (course : Course) (completedLessonIds : List String) : Nat :=
  (completedLessonIds.dedup.filter (fun i => decide (i ∈ lessonIdsOfCourse course))).length

/-- Lexicographic order on index-annotated elements by (key, original
index): the order of a stable ascending sort by `key`. -/
def keyLex {α : Type} (key : α → Int) (p q : Nat × α) : Prop :=
  key p.2 < key q.2 ∨ (key p.2 = key q.2 ∧ p.1 ≤ q.1)

/-! Concrete records used as inputs of witnesses and counterexamples. -/

/-- Example joined module record. -/
def exModuleRef : ModuleRef := { id := "M", title := "m", sort := 1 }

/-- Example completion entry with a fully resolved join for lesson id `i`. -/
def exEntry (i : String) : Option CompletionEntry :=
  some { lms_lessons_id := some { id := i, title := "t", sort := 1, module := some exModuleRef } }

/-- Example completion entry with chosen module and lesson sort keys. -/
def exEntryAt (i : String) (ms ls : Int) : Option CompletionEntry :=
  some ⟨some ⟨i, "t", ls, some ⟨"M" ++ i, "m", ms⟩⟩⟩

/-- Example raw course whose `modules` array is null. -/
def exRawCourseNull : RawCourse := { id := "C", title := "c", modules := none }

/-- Example raw course with one module containing one lesson `L1`. -/
def exRawCourse1 : RawCourse :=
  ⟨"C", "c", some [⟨"M1", "m1", some 1, some [⟨"L1", "l1", some 1⟩]⟩]⟩

/-- Example raw course whose modules arrive in descending sort order. -/
def exRawCourseUnsorted : RawCourse :=
  ⟨"C", "c", some [⟨"M2", "m", some 2, some []⟩, ⟨"M1", "m", some 1, some []⟩]⟩

/-- Example enrollment whose stored completion list holds `L1` twice. -/
def exEnrollmentDup : Enrollment :=
  { id := "E", lessons_completed := some [exEntry "L1", exEntry "L1"] }

/-- Example enrollment with an empty completion list. -/
def exEnrollmentEmpty : Enrollment := { id := "E", lessons_completed := some [] }

/-- Store environment where the lesson exists and the update succeeds. -/
def exEnv : StoreEnv := { lessonFetch := some 200, updateOk := true }

/-- Store environment where the lesson read returns HTTP 503. -/
def exEnv503 : StoreEnv := { lessonFetch := some 503, updateOk := true }

/-- The formatted completed lesson that `exEntryAt i ms ls` resolves to
when both url components are empty. -/
def exCompleted (i : String) (ms ls : Int) : CompletedLesson :=
  { id := i, title := "t", sort := ls,
    url := "/lessons/" ++ i ++ "?completed=true&callback=",
    module := { id := "M" ++ i, title := "m", sort := ms } }

/-! Theorems. -/

/-- Helper: the item-by-item formatting of the completion entries preserves
the number of entries when it succeeds. -/
theorem formatCompletedList_length (b u : String) :
    ∀ (entries : List (Option CompletionEntry)) (ls : List CompletedLesson),
      formatCompletedList b u entries = some ls → ls.length = entries.length := by
  intro entries
  induction entries with
  | nil =>
    intro ls h
    simp only [formatCompletedList, Option.some.injEq] at h
    subst h
    rfl
  | cons a t ih =>
    intro ls h
    simp only [formatCompletedList] at h
    cases ha : formatCompletedItem b u a with
    | none => rw [ha] at h; exact absurd h (by simp)
    | some l =>
      rw [ha] at h
      cases ht : formatCompletedList b u t with
      | none => rw [ht] at h; exact absurd h (by simp)
      | some ls0 =>
        rw [ht] at h
        simp only [Option.some.injEq] at h
        subst h
        simp [ih ls0 ht]

/-- C1, counterexample: the statistics are not clamped.  With a course
whose `modules` is null (total 0) and an enrollment with one resolved
completion entry, the aggregation succeeds and reports `remaining = -1`,
refuting `remaining >= 0`. -/
theorem C1_counterexample :
    (aggregate "" "" (some [exEntry "L9"]) exRawCourseNull).map
        (fun r => r.2.2.remainingCount) = some (-1)
      ∧ ¬ (0 : Int) ≤ (-1 : Int) := by
  constructor
  · simp [aggregate, formatCompletedLessons, formatCompletedList, formatCompletedItem,
      exEntry, exModuleRef, exRawCourseNull, formatCourse, progressStats, totalLessonsCount,
      List.mergeSort]
  · decide

/-- C1, amended: for every formatted course and completed-lessons list the
statistics satisfy `total = completed + remaining`, and `remaining` is
nonnegative exactly when the completed count does not exceed the total;
the code computes `remaining = total - completed` with no clamping, so a
completed count above the total yields a negative `remaining`. -/
theorem C1_stats_invariant (fc : Course) (cl : List CompletedLesson) :
    (progressStats fc cl).totalLessons
        = (progressStats fc cl).completedCount + (progressStats fc cl).remainingCount
      ∧ ((progressStats fc cl).completedCount ≤ (progressStats fc cl).totalLessons →
          0 ≤ (progressStats fc cl).remainingCount) := by
  constructor
  · simp [progressStats]
  · intro h
    simp only [progressStats] at h ⊢
    omega

/-- C1, witness: the amended statistics invariant evaluated on the example
course with one lesson and no completed lessons. -/
theorem C1_stats_invariant_witness :
    (progressStats (formatCourse "" "" exRawCourse1) []).totalLessons
        = (progressStats (formatCourse "" "" exRawCourse1) []).completedCount
            + (progressStats (formatCourse "" "" exRawCourse1) []).remainingCount
      ∧ ((progressStats (formatCourse "" "" exRawCourse1) []).completedCount
            ≤ (progressStats (formatCourse "" "" exRawCourse1) []).totalLessons →
          0 ≤ (progressStats (formatCourse "" "" exRawCourse1) []).remainingCount) :=
  C1_stats_invariant (formatCourse "" "" exRawCourse1) []

/-- C3, counterexample: the completed-id collection is not deduplicated on
read, and a write can carry a duplicate.  With a stored list `[L1, L1]`,
completing `L2` issues the replacement list `[L1, L1, L2]`, whose junction
rows are not duplicate-free. -/
theorem C3_counterexample :
    extractCompletedLessonIds exEnrollmentDup.lessons_completed = ["L1", "L1"]
      ∧ (addLesson exEnv exEnrollmentDup "L2").write = some ["L1", "L1", "L2"]
      ∧ ¬ (lessonCompletions ["L1", "L1", "L2"]).Nodup := by
  refine ⟨by decide, by decide, by decide⟩

/-- C3, amended: the completed ids are read verbatim (null entries skipped,
no deduplication) and the write replaces the list with the current list
plus the new `lessonId` appended; the new id occurs exactly once in the
written list, and the written list is duplicate-free whenever the stored
list was, but pre-existing duplicates are preserved rather than removed. -/
theorem C3_write_shape (env : StoreEnv) (e : Enrollment) (l : String) (s : Nat)
    (hf : env.lessonFetch = some s) (hok : respOk s = true)
    (hnew : l ∉ extractCompletedLessonIds e.lessons_completed) :
    (addLesson env e l).write = some (extractCompletedLessonIds e.lessons_completed ++ [l])
      ∧ (extractCompletedLessonIds e.lessons_completed ++ [l]).count l = 1
      ∧ ((extractCompletedLessonIds e.lessons_completed).Nodup →
          (extractCompletedLessonIds e.lessons_completed ++ [l]).Nodup) := by
  refine ⟨?_, ?_, ?_⟩
  · simp only [addLesson, hf, hok]
    simp [hnew]
    cases env.updateOk <;> simp
  · rw [List.count_append]
    rw [List.count_eq_zero_of_not_mem hnew]
    simp
  · intro hd
    simp [List.nodup_append, hd, hnew]

/-- C3, witness: the amended write shape evaluated on the duplicated
example enrollment. -/
theorem C3_write_shape_witness :
    (addLesson exEnv exEnrollmentDup "L2").write
        = some (extractCompletedLessonIds exEnrollmentDup.lessons_completed ++ ["L2"])
      ∧ (extractCompletedLessonIds exEnrollmentDup.lessons_completed ++ ["L2"]).count "L2" = 1
      ∧ ((extractCompletedLessonIds exEnrollmentDup.lessons_completed).Nodup →
          (extractCompletedLessonIds exEnrollmentDup.lessons_completed ++ ["L2"]).Nodup) :=
  C3_write_shape exEnv exEnrollmentDup "L2" 200 rfl (by decide) (by decide)

/-- C7, counterexample: the pure aggregation stage is not total.  A missing
(`null`) completion list on the enrollment makes the unguarded `.map` at
line 63 throw, so the aggregation aborts into the error path instead of
degrading to an empty list and zero counts. -/
theorem C7_counterexample :
    formatCompletedLessons "" "" none = none
      ∧ aggregate "" "" none exRawCourseNull = none
      ∧ (none : Option (List CompletedLesson)) ≠ some [] :=
  ⟨rfl, rfl, by decide⟩

/-- C7, amended: the course-tree builder and the statistics degrade a null
`modules` or `lessons` array to empty sequences and zero counts without
raising, and the completed-lessons formatting succeeds when every entry
resolves; but a null completion list (or a null join in an entry) makes the
completed-lessons stage raise, which the page catches in its error handler
rather than degrading to an empty list. -/
theorem C7_degrade_or_raise :
    (∀ b u c, c.modules = none →
        (formatCourse b u c).modules = []
          ∧ totalLessonsCount (formatCourse b u c) = 0
          ∧ progressStats (formatCourse b u c) []
              = { totalLessons := 0, completedCount := 0, remainingCount := 0 })
      ∧ (∀ b u m, m.lessons = none → (formatModule b u m).lessons = [])
      ∧ (∀ b u, formatCompletedLessons b u none = none)
      ∧ (∀ b u entries ls, formatCompletedList b u entries = some ls →
          formatCompletedLessons b u (some entries) = some (ls.mergeSort completedLe)) := by
  refine ⟨?_, ?_, ?_, ?_⟩
  · intro b u c hc
    refine ⟨?_, ?_, ?_⟩ <;> simp [formatCourse, hc, totalLessonsCount, progressStats]
  · intro b u m hm
    simp [formatModule, hm]
  · intro b u
    rfl
  · intro b u entries ls h
    simp [formatCompletedLessons, h]

/-- C7, witness: the amended degradation behavior on the example inputs. -/
theorem C7_degrade_or_raise_witness :
    ((formatCourse "" "" exRawCourseNull).modules = []
        ∧ totalLessonsCount (formatCourse "" "" exRawCourseNull) = 0
        ∧ progressStats (formatCourse "" "" exRawCourseNull) []
            = { totalLessons := 0, completedCount := 0, remainingCount := 0 })
      ∧ formatCompletedLessons "" "" none = none :=
  ⟨C7_degrade_or_raise.1 "" "" exRawCourseNull rfl, C7_degrade_or_raise.2.2.1 "" ""⟩

/-- C10: a non-success HTTP status from the lesson-existence read is
returned verbatim by `addLesson` with no write issued, while a failing
enrollment update (the PATCH itself) yields 500. -/
theorem C10_upstream_passthrough (env : StoreEnv) (e : Enrollment) (l : String) :
    (∀ s, env.lessonFetch = some s → respOk s = false →
        addLesson env e l = { status := s, write := none })
      ∧ (∀ s, env.lessonFetch = some s → respOk s = true →
          l ∉ extractCompletedLessonIds e.lessons_completed → env.updateOk = false →
          (addLesson env e l).status = 500) := by
  constructor
  · intro s hf hbad
    simp [addLesson, hf, hbad]
  · intro s hf hok hnew hupd
    simp [addLesson, hf, hok, hnew, hupd]

/-- C10, witness: a 503 from the lesson read surfaces as 503 with no
write, and a failing update yields 500. -/
theorem C10_upstream_passthrough_witness :
    addLesson exEnv503 exEnrollmentEmpty "L2" = { status := 503, write := none }
      ∧ (addLesson { lessonFetch := some 200, updateOk := false } exEnrollmentEmpty "L2").status
          = 500 :=
  ⟨(C10_upstream_passthrough exEnv503 exEnrollmentEmpty "L2").1 503 rfl (by decide),
    (C10_upstream_passthrough { lessonFetch := some 200, updateOk := false } exEnrollmentEmpty
      "L2").2 200 rfl (by decide) (by decide) rfl⟩

/-- C8, counterexample: the tree builder is not free of side effects on
its input.  Building the tree for a course whose raw modules arrive as
`[sort 2, sort 1]` reorders the raw `modules` array in place, so the raw
record after the build differs from the original. -/
theorem C8_counterexample :
    mutateRawCourse exRawCourseUnsorted ≠ exRawCourseUnsorted := by
  have h : mutateRawCourse exRawCourseUnsorted
      = ⟨"C", "c", some [⟨"M1", "m", some 1, some []⟩, ⟨"M2", "m", some 2, some []⟩]⟩ := by
    simp [mutateRawCourse, exRawCourseUnsorted, List.mergeSort, List.splitInTwo, List.merge,
      moduleLe, lessonLe, sortKey]
  rw [h]
  decide

/-- C8, amended: the builder's output is a pure function of the input, but
the two `Array.prototype.sort` calls reorder the raw `modules` and
`lessons` arrays in place; the raw course record is left unchanged when its
modules array and every module's lessons array are already ascending by the
default-0 sort key. -/
theorem C8_in_place_sort (c : RawCourse)
    (hm : ∀ ms, c.modules = some ms →
        ms.Pairwise (fun a b => moduleLe a b = true)
          ∧ ∀ m ∈ ms, ∀ ls, m.lessons = some ls →
              ls.Pairwise (fun a b => lessonLe a b = true)) :
    mutateRawCourse c = c := by
  obtain ⟨cid, ctitle, cmodules⟩ := c
  cases cmodules with
  | none => rfl
  | some ms =>
    obtain ⟨h1, h2⟩ := hm ms rfl
    have hmap : ∀ m ∈ ms,
        ({ m with lessons := m.lessons.map (fun ls => ls.mergeSort lessonLe) } : RawModule)
          = m := by
      intro m hmem
      obtain ⟨mid, mtitle, msort, mlessons⟩ := m
      cases hl : mlessons with
      | none => rfl
      | some ls =>
        subst hl
        simp only [Option.map, RawModule.mk.injEq, true_and]
        rw [List.mergeSort_of_sorted (h2 _ hmem ls rfl)]
    have key : (ms.mergeSort moduleLe).map
        (fun m => ({ m with lessons := m.lessons.map (fun ls => ls.mergeSort lessonLe) } :
          RawModule)) = ms := by
      rw [List.mergeSort_of_sorted h1, List.map_congr_left hmap]
      simp
    simp [mutateRawCourse, key]

/-- C8, witness: the amended statement on the example course whose arrays
are already sorted. -/
theorem C8_in_place_sort_witness :
    mutateRawCourse exRawCourse1 = exRawCourse1 :=
  C8_in_place_sort exRawCourse1 (by
    intro ms hms
    have h : ms = [⟨"M1", "m1", some 1, some [⟨"L1", "l1", some 1⟩]⟩] := by
      have := hms
      simp only [exRawCourse1, Option.some.injEq] at this
      exact this.symm
    subst h
    refine ⟨by decide, ?_⟩
    intro m hmem ls hls
    have hm : m = ⟨"M1", "m1", some 1, some [⟨"L1", "l1", some 1⟩]⟩ := by
      simpa using hmem
    subst hm
    have h2 : ls = [⟨"L1", "l1", some 1⟩] := by
      simp only [Option.some.injEq] at hls
      exact hls.symm
    subst h2
    decide)

/-- C5: completing the same lesson twice returns 201 (with the write
appending the lesson) on the first call, and on the second call — against
the re-read enrollment whose completion list now carries the lesson — 200
with no write; the final completed list carries exactly one entry for the
lesson. -/
theorem C5_idempotent (env : StoreEnv) (e₁ e₂ : Enrollment) (l : String) (s : Nat)
    (hf : env.lessonFetch = some s) (hok : respOk s = true) (hupd : env.updateOk = true)
    (hnew : l ∉ extractCompletedLessonIds e₁.lessons_completed)
    (hre : extractCompletedLessonIds e₂.lessons_completed
        = extractCompletedLessonIds e₁.lessons_completed ++ [l]) :
    (addLesson env e₁ l).status = 201
      ∧ (addLesson env e₁ l).write = some (extractCompletedLessonIds e₁.lessons_completed ++ [l])
      ∧ (addLesson env e₂ l).status = 200
      ∧ (addLesson env e₂ l).write = none
      ∧ (extractCompletedLessonIds e₂.lessons_completed).count l = 1 := by
  have hmem : l ∈ extractCompletedLessonIds e₂.lessons_completed := by
    rw [hre]
    simp
  refine ⟨?_, ?_, ?_, ?_, ?_⟩
  · simp [addLesson, hf, hok, hnew, hupd]
  · simp [addLesson, hf, hok, hnew, hupd]
  · simp [addLesson, hf, hok, hmem]
  · simp [addLesson, hf, hok, hmem]
  · rw [hre, List.count_append, List.count_eq_zero_of_not_mem hnew]
    simp

/-- C5, witness: the idempotence statement evaluated on concrete calls:
first completion of `L2` against an empty list, second against the re-read
list `[L2]`. -/
theorem C5_idempotent_witness :
    (addLesson exEnv exEnrollmentEmpty "L2").status = 201
      ∧ (addLesson exEnv exEnrollmentEmpty "L2").write
          = some (extractCompletedLessonIds exEnrollmentEmpty.lessons_completed ++ ["L2"])
      ∧ (addLesson exEnv ⟨"E", some [exEntry "L2"]⟩ "L2").status = 200
      ∧ (addLesson exEnv ⟨"E", some [exEntry "L2"]⟩ "L2").write = none
      ∧ (extractCompletedLessonIds (Enrollment.lessons_completed ⟨"E", some [exEntry "L2"]⟩)).count "L2" = 1 :=
  C5_idempotent exEnv exEnrollmentEmpty ⟨"E", some [exEntry "L2"]⟩ "L2" 200 rfl (by decide)
    rfl (by decide) (by decide)

/-- C4, counterexample: the mapping "any store failure yields 500" fails:
when the lesson-existence read answers 503, `addLesson` returns 503, not
500. -/
theorem C4_counterexample :
    (addLesson exEnv503 exEnrollmentEmpty "L2").status = 503 ∧ (503 : Nat) ≠ 500 := by
  refine ⟨by decide, by decide⟩

/-- C4, amended: already completed yields 200; newly completed yields 201;
a 404 on the lesson read yields 404; a missing `enrollment_id` yields 400
with no store call; a 404 or null enrollment yields 404; a non-404
enrollment-fetch failure, a network failure, or a failing update yields
500; but a non-success status from the lesson-existence read is returned
verbatim (e.g. 503 surfaces as 503), not remapped to 500. -/
theorem C4_status_mapping :
    (∀ env e l s, env.lessonFetch = some s → respOk s = true →
        l ∈ extractCompletedLessonIds e.lessons_completed → (addLesson env e l).status = 200)
      ∧ (∀ env e l s, env.lessonFetch = some s → respOk s = true →
          l ∉ extractCompletedLessonIds e.lessons_completed → env.updateOk = true →
          (addLesson env e l).status = 201)
      ∧ (∀ env e l, env.lessonFetch = some 404 → (addLesson env e l).status = 404)
      ∧ (∀ env i, strFalsy i = true →
          handler env i = { status := 400, storeCalls := 0, body := none })
      ∧ (∀ env i, strFalsy i = false → env.enrollmentRes = .httpError 404 →
          (handler env i).status = 404)
      ∧ (∀ env i, strFalsy i = false → env.enrollmentRes = .success none →
          (handler env i).status = 404)
      ∧ (∀ env i s, strFalsy i = false → env.enrollmentRes = .httpError s → s ≠ 404 →
          (handler env i).status = 500)
      ∧ (∀ env i, strFalsy i = false → env.enrollmentRes = .thrown →
          (handler env i).status = 500)
      ∧ (∀ env e l s, env.lessonFetch = some s → respOk s = true →
          l ∉ extractCompletedLessonIds e.lessons_completed → env.updateOk = false →
          (addLesson env e l).status = 500)
      ∧ (∀ env e l, env.lessonFetch = none → (addLesson env e l).status = 500)
      ∧ (∀ env e l s, env.lessonFetch = some s → respOk s = false →
          (addLesson env e l).status = s) := by
  refine ⟨?_, ?_, ?_, ?_, ?_, ?_, ?_, ?_, ?_, ?_, ?_⟩
  · intro env e l s hf hok hmem
    simp [addLesson, hf, hok, hmem]
  · intro env e l s hf hok hnew hupd
    simp [addLesson, hf, hok, hnew, hupd]
  · intro env e l hf
    simp [addLesson, hf, respOk]
  · intro env i hi
    simp [handler, hi]
  · intro env i hi he
    simp [handler, hi, he]
  · intro env i hi he
    simp [handler, hi, he]
  · intro env i s hi he hs
    simp [handler, hi, he, hs]
  · intro env i hi he
    simp [handler, hi, he]
  · intro env e l s hf hok hnew hupd
    simp [addLesson, hf, hok, hnew, hupd]
  · intro env e l hf
    simp [addLesson, hf]
  · intro env e l s hf hbad
    simp [addLesson, hf, hbad]

/-- C4, witness: every clause of the amended status mapping evaluated on
concrete inputs. -/
theorem C4_status_mapping_witness :
    (addLesson exEnv exEnrollmentDup "L1").status = 200
      ∧ (addLesson exEnv exEnrollmentEmpty "L2").status = 201
      ∧ (addLesson ⟨some 404, true⟩ exEnrollmentEmpty "L2").status = 404
      ∧ handler ⟨.thrown, .thrown⟩ none = { status := 400, storeCalls := 0, body := none }
      ∧ (handler ⟨.httpError 404, .thrown⟩ (some "E1")).status = 404
      ∧ (handler ⟨.success none, .thrown⟩ (some "E1")).status = 404
      ∧ (handler ⟨.httpError 503, .thrown⟩ (some "E1")).status = 500
      ∧ (handler ⟨.thrown, .thrown⟩ (some "E1")).status = 500
      ∧ (addLesson ⟨some 200, false⟩ exEnrollmentEmpty "L2").status = 500
      ∧ (addLesson ⟨none, true⟩ exEnrollmentEmpty "L2").status = 500
      ∧ (addLesson exEnv503 exEnrollmentEmpty "L3").status = 503 :=
  ⟨C4_status_mapping.1 exEnv exEnrollmentDup "L1" 200 rfl (by decide) (by decide),
    C4_status_mapping.2.1 exEnv exEnrollmentEmpty "L2" 200 rfl (by decide) (by decide) rfl,
    C4_status_mapping.2.2.1 ⟨some 404, true⟩ exEnrollmentEmpty "L2" rfl,
    C4_status_mapping.2.2.2.1 ⟨.thrown, .thrown⟩ none rfl,
    C4_status_mapping.2.2.2.2.1 ⟨.httpError 404, .thrown⟩ (some "E1") (by decide) rfl,
    C4_status_mapping.2.2.2.2.2.1 ⟨.success none, .thrown⟩ (some "E1") (by decide) rfl,
    C4_status_mapping.2.2.2.2.2.2.1 ⟨.httpError 503, .thrown⟩ (some "E1") 503 (by decide) rfl
      (by decide),
    C4_status_mapping.2.2.2.2.2.2.2.1 ⟨.thrown, .thrown⟩ (some "E1") (by decide) rfl,
    C4_status_mapping.2.2.2.2.2.2.2.2.1 ⟨some 200, false⟩ exEnrollmentEmpty "L2" 200 rfl
      (by decide) (by decide) rfl,
    C4_status_mapping.2.2.2.2.2.2.2.2.2.1 ⟨none, true⟩ exEnrollmentEmpty "L2" rfl,
    C4_status_mapping.2.2.2.2.2.2.2.2.2.2 exEnv503 exEnrollmentEmpty "L3" 503 rfl (by decide)⟩

/-- Helper: a stable ascending sort by an integer key, applied to the
index-annotated list with the tie-breaking order `enumLE`, is pairwise
ordered by (key, original index). -/
theorem pairwise_keyLex_mergeSort_enum {α : Type} (key : α → Int) (le : α → α → Bool)
    (hle : ∀ a b, le a b = decide (key a ≤ key b)) (l : List α) :
    ((l.enum).mergeSort (List.enumLE le)).Pairwise (keyLex key) := by
  have htrans : ∀ a b c, le a b → le b c → le a c := by
    intro a b c h1 h2
    rw [hle] at h1 h2 ⊢
    simp only [decide_eq_true_eq] at h1 h2 ⊢
    omega
  have htotal : ∀ a b, le a b || le b a := by
    intro a b
    rw [hle, hle]
    simp only [Bool.or_eq_true, decide_eq_true_eq]
    omega
  have hs := List.sorted_mergeSort
    (fun a b c => List.enumLE_trans htrans a b c) (fun a b => List.enumLE_total htotal a b)
    (l.enum)
  refine hs.imp ?_
  intro p q hpq
  simp only [List.enumLE, hle] at hpq
  by_cases h1 : key p.2 ≤ key q.2
  · by_cases h2 : key q.2 ≤ key p.2
    · simp [h1, h2] at hpq
      exact Or.inr ⟨le_antisymm h1 h2, hpq⟩
    · exact Or.inl (lt_of_le_not_le h1 h2)
  · simp [h1] at hpq

/-- C6: the built course tree has modules sorted ascending by
(sort-or-0, original index) and, inside every module, lessons sorted
ascending by (sort-or-0, original index): the tree equals the stable
(key, index)-lexicographic sort of the raw sequences, which is pairwise
ordered by `keyLex`; a null `modules` or `lessons` array yields the empty
sequence, never an error. -/
theorem C6_stable_sorted_tree (b u : String) (c : RawCourse) :
    (formatCourse b u c).modules
        = ((c.modules.getD []).enum.mergeSort (List.enumLE moduleLe)).map
            (fun p => formatModule b u p.2)
      ∧ ((c.modules.getD []).enum.mergeSort (List.enumLE moduleLe)).Pairwise
          (keyLex (fun m => sortKey m.sort))
      ∧ (∀ m : RawModule,
          (formatModule b u m).lessons
              = ((m.lessons.getD []).enum.mergeSort (List.enumLE lessonLe)).map
                  (fun p => formatLesson b u p.2)
            ∧ ((m.lessons.getD []).enum.mergeSort (List.enumLE lessonLe)).Pairwise
                (keyLex (fun l => sortKey l.sort)))
      ∧ (c.modules = none → (formatCourse b u c).modules = [])
      ∧ (∀ m : RawModule, m.lessons = none → (formatModule b u m).lessons = []) := by
  refine ⟨?_, ?_, ?_, ?_, ?_⟩
  · cases hc : c.modules with
    | none => simp [formatCourse, hc]
    | some ms =>
      simp only [formatCourse, hc, Option.getD_some]
      rw [← @List.mergeSort_enum _ moduleLe ms, List.map_map]
      rfl
  · exact pairwise_keyLex_mergeSort_enum (fun m => sortKey m.sort) moduleLe
      (fun a b => by simp [moduleLe]) (c.modules.getD [])
  · intro m
    constructor
    · cases hl : m.lessons with
      | none => simp [formatModule, hl]
      | some ls =>
        simp only [formatModule, hl, Option.getD_some]
        rw [← @List.mergeSort_enum _ lessonLe ls, List.map_map]
        rfl
    · exact pairwise_keyLex_mergeSort_enum (fun l => sortKey l.sort) lessonLe
        (fun a b => by simp [lessonLe]) (m.lessons.getD [])
  · intro hc
    simp [formatCourse, hc]
  · intro m hl
    simp [formatModule, hl]

/-- C6, witness: the stable-sort characterization of the tree on the
descending example course, plus the empty sequences for null `modules` and
null `lessons`. -/
theorem C6_stable_sorted_tree_witness :
    (formatCourse "" "" exRawCourseUnsorted).modules
        = ((exRawCourseUnsorted.modules.getD []).enum.mergeSort (List.enumLE moduleLe)).map
            (fun p => formatModule "" "" p.2)
      ∧ (formatCourse "" "" exRawCourseNull).modules = []
      ∧ (formatModule "" "" ⟨"M", "m", some 1, none⟩).lessons = [] :=
  ⟨(C6_stable_sorted_tree "" "" exRawCourseUnsorted).1,
    (C6_stable_sorted_tree "" "" exRawCourseNull).2.2.2.1 rfl,
    (C6_stable_sorted_tree "" "" exRawCourseNull).2.2.2.2 ⟨"M", "m", some 1, none⟩ rfl⟩

/-- C9: when every completion entry resolves, the completed-lessons display
list is the input entries sorted pairwise by the owning module's sort key
and then the lesson's sort key, and it is a permutation of the formatted
entries — its order is canonical course order, not completion order. -/
theorem C9_display_order (b u : String) (entries : List (Option CompletionEntry))
    (ls : List CompletedLesson) (h : formatCompletedList b u entries = some ls) :
    formatCompletedLessons b u (some entries) = some (ls.mergeSort completedLe)
      ∧ (ls.mergeSort completedLe).Pairwise (fun a c =>
          a.module.sort < c.module.sort ∨ (a.module.sort = c.module.sort ∧ a.sort ≤ c.sort))
      ∧ (ls.mergeSort completedLe).Perm ls := by
  refine ⟨?_, ?_, ?_⟩
  · simp [formatCompletedLessons, h]
  · have htrans : ∀ a b c, completedLe a b → completedLe b c → completedLe a c := by
      intro a b c h1 h2
      simp only [completedLe, decide_eq_true_eq] at h1 h2 ⊢
      omega
    have htotal : ∀ a b, completedLe a b || completedLe b a := by
      intro a b
      simp only [completedLe, Bool.or_eq_true, decide_eq_true_eq]
      omega
    have hs := List.sorted_mergeSort htrans htotal ls
    refine hs.imp ?_
    intro a c hac
    simpa only [completedLe, decide_eq_true_eq] using hac
  · exact List.mergeSort_perm ls completedLe

/-- C9, witness: the display order on two resolved entries arriving in
reverse canonical order. -/
theorem C9_display_order_witness :
    formatCompletedLessons "" "" (some [exEntryAt "A" 2 1, exEntryAt "B" 1 1])
        = some ([exCompleted "A" 2 1, exCompleted "B" 1 1].mergeSort completedLe)
      ∧ ([exCompleted "A" 2 1, exCompleted "B" 1 1].mergeSort completedLe).Pairwise (fun a c =>
          a.module.sort < c.module.sort ∨ (a.module.sort = c.module.sort ∧ a.sort ≤ c.sort))
      ∧ ([exCompleted "A" 2 1, exCompleted "B" 1 1].mergeSort completedLe).Perm
          [exCompleted "A" 2 1, exCompleted "B" 1 1] :=
  C9_display_order "" "" [exEntryAt "A" 2 1, exEntryAt "B" 1 1]
    [exCompleted "A" 2 1, exCompleted "B" 1 1] (by decide)

/-- C2, counterexample: a completed lesson id that resolves to no lesson of
the current course tree is not excluded.  With a course containing only
`L1` and an enrollment whose single completion entry is `L9`, the code
counts one completed lesson and displays `L9`, while the spec's
intersection count is 0. -/
theorem C2_counterexample :
    (formatCompletedLessons "" "" (some [exEntryAt "L9" 1 1])).map List.length = some 1
      ∧ specCompletedCount (formatCourse "" "" exRawCourse1)
          (extractCompletedLessonIds (some [exEntryAt "L9" 1 1])) = 0
      ∧ (1 : Nat) ≠ 0
      ∧ (formatCompletedLessons "" "" (some [exEntryAt "L9" 1 1])).map
          (List.map (fun x => x.id)) = some ["L9"]
      ∧ "L9" ∉ lessonIdsOfCourse (formatCourse "" "" exRawCourse1) := by
  have hc : formatCourse "" "" exRawCourse1
      = ⟨"C", "c", [⟨"M1", "m1", 1, [⟨"L1", "l1", "/lessons/L1?completed=false&callback=", 1⟩]⟩]⟩ := by
    simp [formatCourse, formatModule, formatLesson, exRawCourse1, List.mergeSort, sortKey]
  have hl : formatCompletedLessons "" "" (some [exEntryAt "L9" 1 1])
      = some [exCompleted "L9" 1 1] := by
    simp [formatCompletedLessons, formatCompletedList, formatCompletedItem, exEntryAt,
      exCompleted, List.mergeSort]
  refine ⟨?_, ?_, by decide, ?_, ?_⟩
  · rw [hl]; decide
  · rw [hc]; decide
  · rw [hl]; decide
  · rw [hc]; decide

/-- C2, amended: the completed-lessons list is built verbatim from the
enrollment's resolved completion entries with no intersection against the
course tree: when every entry resolves, the output exists, has exactly one
element per entry (ids absent from the course are still counted), and its
members are exactly the formatted entries. -/
theorem C2_inclusion_verbatim (b u : String) (entries : List (Option CompletionEntry))
    (ls : List CompletedLesson) (h : formatCompletedList b u entries = some ls) :
    ∃ out, formatCompletedLessons b u (some entries) = some out
      ∧ out.length = entries.length
      ∧ (∀ x, x ∈ out ↔ x ∈ ls) := by
  refine ⟨ls.mergeSort completedLe, ?_, ?_, ?_⟩
  · simp [formatCompletedLessons, h]
  · rw [List.length_mergeSort]
    exact formatCompletedList_length b u entries ls h
  · intro x
    exact List.mem_mergeSort

/-- C2, witness: the amended statement on the single unresolvable-in-course
entry `L9`. -/
theorem C2_inclusion_verbatim_witness :
    ∃ out, formatCompletedLessons "" "" (some [exEntryAt "L9" 1 1]) = some out
      ∧ out.length = [exEntryAt "L9" 1 1].length
      ∧ (∀ x, x ∈ out ↔ x ∈ [exCompleted "L9" 1 1]) :=
  C2_inclusion_verbatim "" "" [exEntryAt "L9" 1 1] [exCompleted "L9" 1 1] (by decide)

end LMS
